import Mathlib

/-!
Verification development for the pr-agent-system repository.

This file gives a shallow embedding of the Phase-3 orchestration core of the
repository (src/pr_agent/evaluation.py, memory.py, rag.py, agent.py) and
proves properties of it.  Numeric scores (Python floats holding values such
as 0.9 or 0.7) are modelled as exact rationals; Python exceptions are
modelled as the Except monad; Python dict payloads are modelled as
structures, with dict .get defaults made explicit in the accessors.
-/

deriving instance DecidableEq for Except

namespace PRAgent

/-! ## Evaluation framework (src/pr_agent/evaluation.py) -/

/-- Outcome of one LLM-as-judge call (external collaborator): either an
exception message or the pair (score, reasoning) extracted from the judge
response dict. -/
abbrev JudgeOutcome := Except String (ℚ × String)

/-- The fixed pass threshold 0.7 used for both per-criterion and aggregate
gating (evaluation.py lines 204, 235). -/
def passThreshold : ℚ := 7 / 10

/-- One per-criterion entry of the results dict built in
PRAgentEvaluator.evaluate_comment (evaluation.py lines 201-205 and 220-224). -/
structure CriterionResult where
  score : ℚ
  reasoning : String
  passed : Bool
deriving Repr, DecidableEq

/-- The per-criterion try/except body of the evaluator loop
(evaluation.py lines 190-225): a successful judge call yields its score,
reasoning and the threshold comparison; a raising judge call is degraded to
score 0.0, passed false, and a failure-reason rationale. -/
def runCriterion (j : JudgeOutcome) : CriterionResult :=
  match j with
  | .ok (score, reasoning) =>
      { score := score, reasoning := reasoning,
        passed := decide (score ≥ passThreshold) }
  | .error e =>
      { score := 0, reasoning := "Evaluation failed: " ++ e, passed := false }

/-- The successful evaluation_results dict (evaluation.py lines 232-240),
restricted to the fields the spec talks about. -/
structure EvaluationResult where
  overall_score : ℚ
  overall_passed : Bool
  criteria_scores : List (String × CriterionResult)
deriving Repr, DecidableEq

/-- The possible shapes of the dict returned by evaluate_comment:
disabled short-circuit (line 167), full result (line 249), or the
catch-all error dict of lines 257-262 which carries
overall_score 0.0 and overall_passed False. -/
inductive EvalScores where
  | disabled
  | result (r : EvaluationResult)
  | evalErrored (e : String)
deriving Repr, DecidableEq

/-- The four fixed criteria registered by the private evaluator-setup method
of PRAgentEvaluator (evaluation.py lines 86-143), in registration order. -/
def criterionNames : List String :=
  ["tone_consistency", "data_usage", "authenticity", "relevance"]

/-- PRAgentEvaluator.evaluate_comment (evaluation.py lines 145-262).
The four judge calls are external; their outcomes are the arguments
j1..j4 (in the fixed registration order of criterionNames).  outerFail
models an exception raised inside the outer try before the criterion loop
(e.g. while building the shared context), which the catch-all of lines
251-262 turns into the error dict. -/
def evaluate_comment (enabled : Bool) (outerFail : Option String)
    (j1 j2 j3 j4 : JudgeOutcome) : EvalScores :=
  if enabled then
    match outerFail with
    | some e => .evalErrored e
    | none =>
        let r1 := runCriterion j1
        let r2 := runCriterion j2
        let r3 := runCriterion j3
        let r4 := runCriterion j4
        let results := [("tone_consistency", r1), ("data_usage", r2),
                        ("authenticity", r3), ("relevance", r4)]
        let scores := [r1.score, r2.score, r3.score, r4.score]
        let overall_score :=
          if scores.length = 0 then 0 else scores.sum / (scores.length : ℚ)
        .result { overall_score := overall_score,
                  overall_passed := decide (overall_score ≥ passThreshold),
                  criteria_scores := results }
  else .disabled

/-- r.get with key overall_score and default 0.0, as used on the results of
evaluate_comment inside evaluate_batch (evaluation.py line 343). -/
def overallScoreD : EvalScores → ℚ
  | .disabled => 0
  | .result r => r.overall_score
  | .evalErrored _ => 0

/-- r.get with key overall_passed and default False, as used inside
evaluate_batch (evaluation.py line 345). -/
def overallPassedD : EvalScores → Bool
  | .disabled => false
  | .result r => r.overall_passed
  | .evalErrored _ => false

/-- Python division: raises ZeroDivisionError on a zero divisor. -/
def pyDiv (a b : ℚ) : Except String ℚ :=
  if b = 0 then .error "division by zero" else .ok (a / b)

/-- Python min(scores) guarded by the `if scores else 0.0` of
evaluation.py line 354. -/
def listMin : List ℚ → ℚ
  | [] => 0
  | x :: xs => xs.foldl min x

/-- Python max(scores) guarded by the `if scores else 0.0` of
evaluation.py line 355. -/
def listMax : List ℚ → ℚ
  | [] => 0
  | x :: xs => xs.foldl max x

/-- One element of the comments list passed to evaluate_batch: the text
fields do not influence control flow, so each item is represented by the
judge-call outcomes its evaluation will see. -/
structure BatchItem where
  outerFail : Option String
  j1 : JudgeOutcome
  j2 : JudgeOutcome
  j3 : JudgeOutcome
  j4 : JudgeOutcome
deriving Repr, DecidableEq

/-- The statistics sub-dict of a successful batch result
(evaluation.py lines 351-356). -/
structure BatchStats where
  average_score : ℚ
  pass_rate : ℚ
  min_score : ℚ
  max_score : ℚ
deriving Repr, DecidableEq

/-- The possible shapes of the dict returned by evaluate_batch: disabled
(line 319), success (lines 347-358), or the catch-all error dict of
lines 375-379 carrying the exception text and the comment count. -/
inductive BatchOutcome where
  | disabled
  | completed (comment_count : Nat) (results : List EvalScores)
      (statistics : BatchStats)
  | errored (error : String) (comment_count : Nat)
deriving Repr, DecidableEq

/-- PRAgentEvaluator.evaluate_batch (evaluation.py lines 305-379).
Faithful to the source: average_score, min_score and max_score are each
guarded against an empty scores list, but the pass-rate divides by
len(results) unguarded; the blanket except turns the resulting
ZeroDivisionError into the errored dict. -/
def evaluate_batch (enabled : Bool) (items : List BatchItem) : BatchOutcome :=
  if enabled then
    let results := items.map
      (fun it => evaluate_comment true it.outerFail it.j1 it.j2 it.j3 it.j4)
    let scores := results.map overallScoreD
    let average_score :=
      if scores.length = 0 then 0 else scores.sum / (scores.length : ℚ)
    match pyDiv ((results.filter (fun r => overallPassedD r)).length : ℚ)
        ((results.length : ℚ)) with
    | .error e => .errored e items.length
    | .ok pass_rate =>
        .completed items.length results
          { average_score := average_score, pass_rate := pass_rate,
            min_score := listMin scores, max_score := listMax scores }
  else .disabled

/-! ## Phase-3 subsystem construction
(memory.py lines 37-95, rag.py lines 38-96, evaluation.py lines 32-84,
agent.py lines 157-191) -/

/-- The sticky enabled flag a constructed subsystem ends up with. -/
structure SubsystemHandle where
  enabled : Bool
deriving Repr, DecidableEq

/-- PRAgentMemory construction (memory.py lines 37-95): flag off or
missing VoyageAI key return a disabled handle before the try block;
a failure of the external embedding/vector-store setup (the backendSetup
argument) is logged, enabled is reset, and the exception is re-raised. -/
def memoryConstruct (enable_memory : Bool) (voyage_api_key : Bool)
    (backendSetup : Except String Unit) : Except String SubsystemHandle :=
  if !enable_memory then .ok { enabled := false }
  else if !voyage_api_key then .ok { enabled := false }
  else
    match backendSetup with
    | .ok _ => .ok { enabled := true }
    | .error e => .error e

/-- PRAgentRAG construction (rag.py lines 38-96): same shape as
memoryConstruct. -/
def ragConstruct (enable_rag : Bool) (voyage_api_key : Bool)
    (backendSetup : Except String Unit) : Except String SubsystemHandle :=
  if !enable_rag then .ok { enabled := false }
  else if !voyage_api_key then .ok { enabled := false }
  else
    match backendSetup with
    | .ok _ => .ok { enabled := true }
    | .error e => .error e

/-- PRAgentEvaluator._create_eval_llm (evaluation.py lines 68-84):
prefers the Anthropic key, falls back to the OpenAI key, and raises
ValueError when neither is configured. -/
def createEvalLLM (anthropic_api_key openai_api_key : Bool) :
    Except String Unit :=
  if anthropic_api_key then .ok ()
  else if openai_api_key then .ok ()
  else .error "No valid API key for evaluation LLM"

/-- PRAgentEvaluator construction (evaluation.py lines 32-66): flag off
returns a disabled handle; otherwise the LLM and judge setup run inside a
try whose except logs, sets enabled to False, and RE-RAISES the exception
(line 66) - unlike memory and RAG there is no credential-absence
early-return.  backendSetup models the external judge-loading calls. -/
def evaluatorConstruct (enable_evaluation : Bool)
    (anthropic_api_key openai_api_key : Bool)
    (backendSetup : Except String Unit) : Except String SubsystemHandle :=
  if !enable_evaluation then .ok { enabled := false }
  else
    match createEvalLLM anthropic_api_key openai_api_key with
    | .error e => .error e
    | .ok _ =>
        match backendSetup with
        | .ok _ => .ok { enabled := true }
        | .error e => .error e

/-- The agent-level wrapping of the three subsystem constructions
(agent.py lines 157-191): each is built inside a try whose except logs a
warning and continues with the attribute set to None. -/
def agentWrapConstruct (c : Except String SubsystemHandle) :
    Option SubsystemHandle :=
  match c with
  | .ok h => some h
  | .error _ => none

/-! ## Vector-store documents and RAG retrieval (src/pr_agent/rag.py) -/

/-- The metadata dict of a stored document, restricted to the keys the
retrieval formatters read; a missing key makes the corresponding
doc.metadata.get default apply. -/
structure DocMeta where
  question : Option String
  executive_name : Option String
  media_outlet : Option String
  journalist_name : Option String
  category : Option String
  timestamp : Option String
  comment_length : Option Nat
deriving Repr, DecidableEq

/-- An empty metadata dict. -/
def DocMeta.empty : DocMeta :=
  { question := none, executive_name := none, media_outlet := none,
    journalist_name := none, category := none, timestamp := none,
    comment_length := none }

/-- A document returned by the embedding-backed store (external
collaborator). -/
structure Document where
  page_content : String
  metadata : DocMeta
deriving Repr, DecidableEq

/-- Python s.split(sep, 1): the text before the first occurrence of sep,
and the remainder after it when sep occurs. -/
def pySplitOnce (sep s : String) : String × Option String :=
  match s.splitOn sep with
  | [] => (s, none)
  | [x] => (x, none)
  | x :: rest => (x, some (String.intercalate sep rest))

/-- One formatted entry of PRAgentRAG.find_similar_comments
(rag.py lines 248-262). -/
structure SimilarComment where
  question : String
  comment : String
  executive : String
  media_outlet : String
  timestamp : String
deriving Repr, DecidableEq

/-- The per-document formatting of rag.py lines 249-262: split the page
content at the first "Comment: ", strip the "Question: " marker from the
first part, and read the metadata with empty-string defaults. -/
def formatCommentDoc (doc : Document) : SimilarComment :=
  let parts := pySplitOnce "Comment: " doc.page_content
  { question := ((parts.1).replace "Question: " "").trim,
    comment := (match parts.2 with | some t => t.trim | none => ""),
    executive := doc.metadata.executive_name.getD "",
    media_outlet := doc.metadata.media_outlet.getD "",
    timestamp := doc.metadata.timestamp.getD "" }

/-- PRAgentRAG.find_similar_comments (rag.py lines 202-280): disabled
returns an empty list; an erroring store query is caught and degraded to
an empty list; a successful query is formatted per document.  The query
text, metadata filter and k are arguments of the external query whose
outcome is the search argument. -/
def find_similar_comments (enabled : Bool)
    (search : Except String (List Document)) : List SimilarComment :=
  if enabled then
    match search with
    | .ok docs => docs.map formatCommentDoc
    | .error _ => []
  else []

/-- One formatted entry of PRAgentRAG.retrieve_media_knowledge
(rag.py lines 377-385). -/
structure KnowledgeChunk where
  content : String
  media_outlet : String
  journalist : String
deriving Repr, DecidableEq

/-- The per-document formatting of rag.py lines 377-385. -/
def formatMediaDoc (doc : Document) : KnowledgeChunk :=
  { content := doc.page_content,
    media_outlet := doc.metadata.media_outlet.getD "",
    journalist := doc.metadata.journalist_name.getD "" }

/-- PRAgentRAG.retrieve_media_knowledge (rag.py lines 337-403): same
catch-to-empty-list shape as find_similar_comments. -/
def retrieve_media_knowledge (enabled : Bool)
    (search : Except String (List Document)) : List KnowledgeChunk :=
  if enabled then
    match search with
    | .ok docs => docs.map formatMediaDoc
    | .error _ => []
  else []

/-- One formatted entry of PRAgentRAG.retrieve_examples
(rag.py lines 489-496). -/
structure ExampleDoc where
  content : String
  category : String
deriving Repr, DecidableEq

/-- The per-document formatting of rag.py lines 489-496. -/
def formatExampleDoc (doc : Document) : ExampleDoc :=
  { content := doc.page_content,
    category := doc.metadata.category.getD "" }

/-- PRAgentRAG.retrieve_examples (rag.py lines 453-513): same
catch-to-empty-list shape as find_similar_comments. -/
def retrieve_examples (enabled : Bool)
    (search : Except String (List Document)) : List ExampleDoc :=
  if enabled then
    match search with
    | .ok docs => docs.map formatExampleDoc
    | .error _ => []
  else []

/-- The outcomes of the three store queries one augment_with_context call
performs (similar comments k=3, media knowledge k=2, examples k=2). -/
structure RagQueries where
  commentSearch : Except String (List Document)
  mediaSearch : Except String (List Document)
  exampleSearch : Except String (List Document)
deriving Repr, DecidableEq

/-- The augmented-context dict of rag.py lines 562-572. -/
structure AugmentBundle where
  similar_comments : List SimilarComment
  media_knowledge : List KnowledgeChunk
  examples : List ExampleDoc
  similar_comments_count : Nat
  media_knowledge_count : Nat
  examples_count : Nat
deriving Repr, DecidableEq

/-- The possible shapes of the dict returned by augment_with_context:
disabled (rag.py line 535), the enabled bundle (lines 562-572), or the
outer-catch error dict of line 589 (enabled True with an error field). -/
inductive AugmentOutcome where
  | disabled
  | bundle (b : AugmentBundle)
  | errored (e : String)
deriving Repr, DecidableEq

/-- PRAgentRAG.augment_with_context (rag.py lines 515-589): runs the three
retrieval methods (each of which swallows its own store errors) and
assembles the bundle with retrieval counts taken from the three result
lists. -/
def augment_with_context (enabled : Bool) (q : RagQueries) : AugmentOutcome :=
  if enabled then
    let similar_comments := find_similar_comments enabled q.commentSearch
    let media_knowledge := retrieve_media_knowledge enabled q.mediaSearch
    let examples := retrieve_examples enabled q.exampleSearch
    .bundle { similar_comments := similar_comments,
              media_knowledge := media_knowledge,
              examples := examples,
              similar_comments_count := similar_comments.length,
              media_knowledge_count := media_knowledge.length,
              examples_count := examples.length }
  else .disabled

/-! ## Long-term memory operations (src/pr_agent/memory.py) -/

/-- One formatted entry of PRAgentMemory.retrieve_similar_comments
(memory.py lines 270-279). -/
structure PastComment where
  question : String
  comment : String
  executive : String
  media_outlet : String
  timestamp : String
  comment_length : Nat
deriving Repr, DecidableEq

/-- The per-document formatting of memory.py lines 271-279; the comment is
the text after the LAST occurrence of "Comment: " (Python split()[-1],
no maxsplit). -/
def formatMemoryDoc (doc : Document) : PastComment :=
  { question := doc.metadata.question.getD "",
    comment := (doc.page_content.splitOn "Comment: ").getLastD "",
    executive := doc.metadata.executive_name.getD "",
    media_outlet := doc.metadata.media_outlet.getD "",
    timestamp := doc.metadata.timestamp.getD "",
    comment_length := doc.metadata.comment_length.getD 0 }

/-- PRAgentMemory.retrieve_similar_comments (memory.py lines 226-298):
disabled returns an empty list, an erroring store query is caught and
degraded to an empty list. -/
def retrieve_similar_comments (enabled : Bool)
    (search : Except String (List Document)) : List PastComment :=
  if enabled then
    match search with
    | .ok docs => docs.map formatMemoryDoc
    | .error _ => []
  else []

/-- The observable effect of a best-effort store write such as
PRAgentMemory.save_to_long_term (memory.py lines 165-224) or
PRAgentRAG.store_comment (rag.py lines 141-200): whether the vector-store
write was attempted; store exceptions are logged and swallowed, never
re-raised. -/
structure WriteEffect where
  storeWriteAttempted : Bool
deriving Repr, DecidableEq

/-- PRAgentMemory.save_to_long_term (memory.py lines 165-224): disabled
returns immediately without touching the store; enabled attempts the write
and swallows any store error. -/
def save_to_long_term (enabled : Bool) (store : Except String Unit) :
    WriteEffect :=
  if enabled then
    match store with
    | .ok _ => { storeWriteAttempted := true }
    | .error _ => { storeWriteAttempted := true }
  else { storeWriteAttempted := false }

/-- PRAgentRAG.store_comment (rag.py lines 141-200): same best-effort
shape as save_to_long_term. -/
def store_comment (enabled : Bool) (store : Except String Unit) :
    WriteEffect :=
  if enabled then
    match store with
    | .ok _ => { storeWriteAttempted := true }
    | .error _ => { storeWriteAttempted := true }
  else { storeWriteAttempted := false }

/-! ## Short-term session buffer

PRAgentMemory delegates the short-term buffer to the external LangChain
ConversationTokenBufferMemory class (memory.py lines 101-163), constructed
with max_token_limit = config.memory_max_tokens.  That class is not part of
this repository, so its buffer semantics are modelled from the spec:
"a bounded ordered sequence of (question, comment) turns, capped by a token
budget (not message count) - oldest turns are evicted first when the budget
is exceeded", with an abstract token estimator standing for the
tokenizer of the generation LLM. -/

/-- One materialized message of the conversation history, as produced by
PRAgentMemory.get_conversation_history (memory.py lines 320-326). -/
structure ChatMsg where
  role : String
  content : String
deriving Repr, DecidableEq

/-- Modelled from the spec: the cumulative estimated token count of a
buffer, using the abstract per-message estimator tok. -/
def totalTokens (tok : String → Nat) (msgs : List ChatMsg) : Nat :=
  (msgs.map (fun m => tok m.content)).sum

/-- Modelled from the spec: evict oldest messages first (FIFO) until the
buffer is within the token budget. -/
def evictOldest (tok : String → Nat) (maxTokens : Nat) :
    List ChatMsg → List ChatMsg
  | [] => []
  | m :: rest =>
      if totalTokens tok (m :: rest) > maxTokens then
        evictOldest tok maxTokens rest
      else m :: rest

/-- Modelled from the spec: append one (question, comment) turn as a human
message followed by an ai message, then restore the token budget by
evicting oldest messages first (the save_context behaviour behind
PRAgentMemory.save_to_short_term, memory.py lines 125-163). -/
def appendTurn (tok : String → Nat) (maxTokens : Nat) (msgs : List ChatMsg)
    (question comment : String) : List ChatMsg :=
  evictOldest tok maxTokens
    (msgs ++ [{ role := "human", content := question },
              { role := "ai", content := comment }])

/-- The buffer contents after a sequence of appended turns on a freshly
created session (memory.py get_short_term_memory lazily creates an empty
buffer on first access). -/
def bufferAfter (tok : String → Nat) (maxTokens : Nat)
    (turns : List (String × String)) : List ChatMsg :=
  turns.foldl (fun msgs t => appendTurn tok maxTokens msgs t.1 t.2) []

/-! ## Executive profile and input validation (src/pr_agent/agent.py) -/

/-- An executive profile as loaded by ExecutiveProfileManager.load_profile
(profile_manager.py): required keys name, title, communication_style,
expertise are validated; talking_points is optional and may be an empty
list. -/
structure Profile where
  name : String
  title : String
  communication_style : String
  expertise : List String
  talking_points : Option (List String)
deriving Repr, DecidableEq

/-- The perspective extraction of agent.py lines 749 and 1271:
profile.get with key talking_points and default a one-element list of the
empty string, then indexing element 0.  A present-but-empty list raises
IndexError. -/
def perspectiveOf (p : Profile) : Except String String :=
  match p.talking_points with
  | none => .ok ""
  | some [] => .error "list index out of range"
  | some (x :: _) => .ok x

/-- The caller-supplied inputs of the comment-generation entry points. -/
structure GenInputs where
  article_text : String
  journalist_question : String
  media_outlet : String
  executive_name : String
  article_url : Option String
  pr_manager_email : Option String
deriving Repr, DecidableEq

/-- Python str.isspace characters as stripped by str.strip(). -/
def isSpaceChar (c : Char) : Bool :=
  c = ' ' || c = '\t' || c = '\n' || c = '\r' || c = '\x0b' || c = '\x0c'

/-- Python s.strip(): remove leading and trailing whitespace. -/
def pyStrip (s : String) : String :=
  String.mk (((s.data.dropWhile isSpaceChar).reverse.dropWhile
    isSpaceChar).reverse)

/-- The shared required-input validation block (agent.py lines 564-578,
repeated verbatim at lines 700-713 and 1198-1211): the four text fields
must be non-empty and not whitespace-only (Python `not x or not
x.strip()`), article_text is capped at 50,000 characters and
journalist_question at 1,000.  Every failure is a ValueError raised
before anything else runs. -/
def validateCore (inp : GenInputs) : Except String Unit :=
  if pyStrip inp.article_text = "" then
    .error "article_text cannot be empty"
  else if pyStrip inp.journalist_question = "" then
    .error "journalist_question cannot be empty"
  else if pyStrip inp.media_outlet = "" then
    .error "media_outlet cannot be empty"
  else if pyStrip inp.executive_name = "" then
    .error "executive_name cannot be empty"
  else if inp.article_text.length > 50000 then
    .error "article_text exceeds maximum length of 50,000 characters"
  else if inp.journalist_question.length > 1000 then
    .error "journalist_question exceeds maximum length of 1,000 characters"
  else .ok ()

/-- The full validation of generate_comment and generate_comment_async
(agent.py lines 564-595): the core block followed by the optional
article_url and pr_manager_email format checks, whose external
urlparse/regex verdicts are the urlValid and emailValid arguments. -/
def validateWithContact (inp : GenInputs) (urlValid emailValid : Bool) :
    Except String Unit :=
  match validateCore inp with
  | .error e => .error e
  | .ok _ =>
      match inp.article_url with
      | some _ =>
          if !urlValid then .error "article_url must be a valid URL"
          else
            match inp.pr_manager_email with
            | some _ =>
                if !emailValid then
                  .error "pr_manager_email is not a valid email address"
                else .ok ()
            | none => .ok ()
      | none =>
          match inp.pr_manager_email with
          | some _ =>
              if !emailValid then
                .error "pr_manager_email is not a valid email address"
              else .ok ()
          | none => .ok ()

/-! ## Synchronous LangGraph workflow (agent.py lines 282-534) -/

/-- The workflow state of state.py, restricted to the fields the graph
nodes read and write.  The media_research and supporting_data dict
payloads are represented by their analysis and curated_data texts. -/
structure AgentState where
  executive_profile : Option Profile
  media_research : Option String
  supporting_data : Option String
  drafted_comment : Option String
  humanized_comment : Option String
  email_sent : Bool
  current_step : String
  errors : List String
deriving Repr, DecidableEq

/-- The initial state built by generate_comment (agent.py lines 596-615). -/
def initialState : AgentState :=
  { executive_profile := none, media_research := none,
    supporting_data := none, drafted_comment := none,
    humanized_comment := none, email_sent := false,
    current_step := "initializing", errors := [] }

/-- The outcomes of the external calls a synchronous workflow run can
make; each is consulted only if control actually reaches it. -/
structure SyncEnv where
  profile : Except String Profile
  mediaResearch : Except String String
  dataResearch : Except String String
  draftCall : Except String String
  humanizeCall : Except String String
  emailConfigured : Bool
  emailSend : Except String Bool
deriving Repr, DecidableEq

/-- PRCommentAgent._load_profile_node (agent.py lines 310-341): on failure
the error is appended to the errors list and the state returned - the
workflow continues to the next node. -/
def load_profile_node (env : SyncEnv) (s : AgentState) : AgentState :=
  match env.profile with
  | .ok p =>
      { s with executive_profile := some p,
               current_step := "profile_loaded" }
  | .error e =>
      { s with errors := s.errors ++ ["Failed to load profile: " ++ e] }

/-- PRCommentAgent._research_media_node (agent.py lines 343-379): failure
degrades to the static placeholder analysis. -/
def research_media_node (env : SyncEnv) (s : AgentState) : AgentState :=
  match env.mediaResearch with
  | .ok r =>
      { s with media_research := some r,
               current_step := "media_researched" }
  | .error e =>
      { s with media_research := some "Media research unavailable",
               errors := s.errors ++ ["Media research failed: " ++ e] }

/-- PRCommentAgent._research_data_node (agent.py lines 381-411): the body
first evaluates state executive_profile .get(talking_points, ..)[0]; with a
missing profile that attribute access raises (caught by the node), and
with an empty talking-points list the indexing raises (caught by the
node); otherwise the external research outcome decides.  Failure degrades
to the static placeholder payload. -/
def research_data_node (env : SyncEnv) (s : AgentState) : AgentState :=
  let attempt : Except String String :=
    match s.executive_profile with
    | none => .error "NoneType object has no attribute get"
    | some p =>
        match perspectiveOf p with
        | .error e => .error e
        | .ok _ => env.dataResearch
  match attempt with
  | .ok r =>
      { s with supporting_data := some r,
               current_step := "data_researched" }
  | .error e =>
      { s with supporting_data := some "No supporting data available",
               errors := s.errors ++ ["Data research failed: " ++ e] }

/-- PRCommentAgent._draft_comment_node (agent.py lines 413-447): the
drafter dereferences the profile and the two research dicts, so a missing
profile or missing research payload raises inside the node (caught); a
failure leaves drafted_comment unset and appends the error. -/
def draft_comment_node (env : SyncEnv) (s : AgentState) : AgentState :=
  let attempt : Except String String :=
    match s.executive_profile with
    | none => .error "argument of type NoneType is not iterable"
    | some _ =>
        match s.media_research, s.supporting_data with
        | some _, some _ => env.draftCall
        | _, _ => .error "NoneType object has no attribute get"
  match attempt with
  | .ok c =>
      { s with drafted_comment := some c,
               current_step := "comment_drafted" }
  | .error e =>
      { s with errors := s.errors ++ ["Comment drafting failed: " ++ e] }

/-- PRCommentAgent._humanize_comment_node (agent.py lines 449-482): the
humanizer dereferences the profile (raising inside the node when it is
missing); on any failure the node falls back to the drafted comment
verbatim and appends the error - it never fails the run. -/
def humanize_comment_node (env : SyncEnv) (s : AgentState) : AgentState :=
  let attempt : Except String String :=
    match s.executive_profile with
    | none => .error "argument of type NoneType is not iterable"
    | some _ => env.humanizeCall
  match attempt with
  | .ok h =>
      { s with humanized_comment := some h,
               current_step := "comment_humanized" }
  | .error e =>
      { s with humanized_comment := s.drafted_comment,
               errors := s.errors ++ ["Humanization failed: " ++ e] }

/-- PRCommentAgent._send_email_node (agent.py lines 484-534): skipped
without error when no PR-manager address is configured; a send failure
records email_sent false and appends the error. -/
def send_email_node (env : SyncEnv) (s : AgentState) : AgentState :=
  if env.emailConfigured then
    match env.emailSend with
    | .ok b => { s with email_sent := b, current_step := "email_sent" }
    | .error e =>
        { s with email_sent := false,
                 errors := s.errors ++ ["Email sending failed: " ++ e] }
  else { s with email_sent := false }

/-- The compiled linear graph of agent.py lines 282-308: load_profile,
research_media, research_data, draft_comment, humanize_comment,
send_email, in that fixed order with no conditional edges. -/
def syncWorkflow (env : SyncEnv) (s : AgentState) : AgentState :=
  send_email_node env
    (humanize_comment_node env
      (draft_comment_node env
        (research_data_node env
          (research_media_node env
            (load_profile_node env s)))))

/-- The observable shape of one generate_comment call: the returned state
or the raised ValueError, plus whether the cache was consulted and the
workflow invoked. -/
structure SyncRun where
  outcome : Except String AgentState
  cacheChecked : Bool
  workflowRan : Bool
deriving Repr, DecidableEq

/-- PRCommentAgent.generate_comment (agent.py lines 536-659): validation
first (raising ValueError before anything else), then the cache lookup,
then the workflow. -/
def generate_comment (inp : GenInputs) (urlValid emailValid : Bool)
    (cacheHit : Option AgentState) (env : SyncEnv) : SyncRun :=
  match validateWithContact inp urlValid emailValid with
  | .error e =>
      { outcome := .error e, cacheChecked := false, workflowRan := false }
  | .ok _ =>
      match cacheHit with
      | some r =>
          { outcome := .ok r, cacheChecked := true, workflowRan := false }
      | none =>
          { outcome := .ok (syncWorkflow env initialState),
            cacheChecked := true, workflowRan := true }

/-! ## Async workflow (agent.py lines 661-900) -/

/-- The result dict of a completed generate_comment_async run (agent.py
lines 869-888), restricted to the fields the spec talks about; its errors
list is the literal empty list of line 886. -/
structure AsyncResult where
  executive_profile : Profile
  media_research : String
  supporting_data : String
  drafted_comment : String
  humanized_comment : String
  email_sent : Bool
  errors : List String
deriving Repr, DecidableEq

/-- The observable shape of one async run: the returned result or the
propagated exception, plus the ordered list of stages whose external calls
were actually reached. -/
structure AsyncRun where
  outcome : Except String AsyncResult
  invoked : List String
deriving Repr, DecidableEq

/-- PRCommentAgent.generate_comment_async (agent.py lines 661-900):
validation raises first; inside the try, a profile-load failure and the
perspective IndexError propagate (the outer except of lines 890-900 logs
and re-raises), the two research branches are gathered with
return_exceptions=True and degrade independently to placeholders, a draft
failure propagates, a humanize failure falls back to the drafted text, and
an email failure is swallowed. -/
def generate_comment_async (inp : GenInputs) (urlValid emailValid : Bool)
    (env : SyncEnv) : AsyncRun :=
  match validateWithContact inp urlValid emailValid with
  | .error e => { outcome := .error e, invoked := [] }
  | .ok _ =>
      match env.profile with
      | .error e => { outcome := .error e, invoked := ["load_profile"] }
      | .ok p =>
          match perspectiveOf p with
          | .error e => { outcome := .error e, invoked := ["load_profile"] }
          | .ok _ =>
              let media_research :=
                match env.mediaResearch with
                | .ok r => r
                | .error _ => "Media research unavailable"
              let supporting_data :=
                match env.dataResearch with
                | .ok r => r
                | .error _ => "No supporting data available"
              let inv := ["load_profile", "research_media", "research_data"]
              match env.draftCall with
              | .error e =>
                  { outcome := .error e, invoked := inv ++ ["draft"] }
              | .ok drafted =>
                  let humanized :=
                    match env.humanizeCall with
                    | .ok h => h
                    | .error _ => drafted
                  let email_sent :=
                    if env.emailConfigured then
                      match env.emailSend with
                      | .ok b => b
                      | .error _ => false
                    else false
                  let inv2 := inv ++ ["draft", "humanize"] ++
                    (if env.emailConfigured then ["send_email"] else [])
                  { outcome := .ok
                      { executive_profile := p,
                        media_research := media_research,
                        supporting_data := supporting_data,
                        drafted_comment := drafted,
                        humanized_comment := humanized,
                        email_sent := email_sent,
                        errors := [] },
                    invoked := inv2 }

/-! ## Phase-3 workflow
(PRCommentAgent.generate_comment_with_memory_and_evaluation,
agent.py lines 1152-1472) -/

/-- The enabled flag the final result reports for evaluation:
evaluation_results.get with key enabled and default False
(agent.py line 1445). -/
def evalEnabledFlag : EvalScores → Bool
  | .disabled => false
  | .result _ => true
  | .evalErrored _ => true

/-- The outcomes of the external calls one Phase-3 run can make. -/
structure Phase3Env where
  memoryEnabled : Bool
  ragEnabled : Bool
  evaluatorEnabled : Bool
  memorySearch : Except String (List Document)
  ragQueries : RagQueries
  profile : Except String Profile
  mediaResearch : Except String String
  dataResearch : Except String String
  draftCall : Except String String
  humanizeCall : Except String String
  evalEscape : Option String
  evalOuterFail : Option String
  j1 : JudgeOutcome
  j2 : JudgeOutcome
  j3 : JudgeOutcome
  j4 : JudgeOutcome
  shortTermStore : Except String Unit
  longTermStore : Except String Unit
  ragCommentStore : Except String Unit
  emailConfigured : Bool
  emailSend : Except String Bool
  history : List ChatMsg
deriving Repr, DecidableEq

/-- The evaluation step of agent.py lines 1322-1341: only attempted when
the caller opted in and the evaluator is present and enabled; an exception
escaping the evaluator call (evalEscape) is caught by the agent and
replaced by the keyless agent-side error dict, modelled as the .disabled
gate shape with enabled True - represented separately below. -/
inductive Phase3EvalScores where
  | skipped
  | scores (s : EvalScores)
  | agentErrored (e : String)
deriving Repr, DecidableEq

/-- The dict produced by the evaluation step of agent.py lines 1322-1341. -/
def phase3EvalStep (enable_evaluation : Bool) (env : Phase3Env) :
    Phase3EvalScores :=
  if enable_evaluation && env.evaluatorEnabled then
    match env.evalEscape with
    | some e => .agentErrored e
    | none =>
        .scores (evaluate_comment true env.evalOuterFail
          env.j1 env.j2 env.j3 env.j4)
  else .skipped

/-- evaluation_results.get with key overall_passed and default True
(agent.py lines 1355 and 1371) over the phase-3 evaluation dict: the
skipped dict (enabled False) and the agent-side error dict both lack the
key, so the permissive default applies; the evaluator-side error dict
carries overall_passed False. -/
def gateOf : Phase3EvalScores → Bool
  | .skipped => true
  | .agentErrored _ => true
  | .scores .disabled => true
  | .scores (.result r) => r.overall_passed
  | .scores (.evalErrored _) => false

/-- evaluation_results.get with key enabled and default False
(agent.py line 1445). -/
def enabledOf : Phase3EvalScores → Bool
  | .skipped => false
  | .agentErrored _ => true
  | .scores .disabled => false
  | .scores (.result _) => true
  | .scores (.evalErrored _) => true

/-- The comprehensive result dict of agent.py lines 1417-1447, restricted
to the fields the spec talks about; its errors list is the literal empty
list of line 1434. -/
structure Phase3Result where
  executive_profile : Profile
  media_research : String
  supporting_data : String
  drafted_comment : String
  humanized_comment : String
  email_sent : Bool
  errors : List String
  past_comments : List PastComment
  rag_context : AugmentOutcome
  conversation_history : List ChatMsg
  evaluation_scores : Phase3EvalScores
  memory_enabled : Bool
  rag_enabled : Bool
  evaluation_enabled : Bool
deriving Repr, DecidableEq

/-- The observable shape of one Phase-3 run: the returned result or the
propagated exception, plus the ordered list of subsystem calls and stages
whose external calls were actually reached. -/
structure Phase3Run where
  outcome : Except String Phase3Result
  invoked : List String
deriving Repr, DecidableEq

/-- PRCommentAgent.generate_comment_with_memory_and_evaluation
(agent.py lines 1152-1472).  Validation raises first.  Inside the try:
memory retrieval and RAG augmentation swallow their own errors; a
profile-load failure and the perspective IndexError propagate (the outer
except of lines 1461-1472 re-raises); research degrades independently; a
draft failure propagates; a humanize failure falls back to the drafted
text; the evaluation step is guarded; the short-term save is unconditional
(given memory enabled) while the long-term save and the RAG comment store
are additionally gated on the persistence gate; the email step is guarded
by configuration and swallows errors. -/
def generate_comment_with_memory_and_evaluation (inp : GenInputs)
    (enable_evaluation : Bool) (env : Phase3Env) : Phase3Run :=
  match validateCore inp with
  | .error e => { outcome := .error e, invoked := [] }
  | .ok _ =>
      let past_comments :=
        retrieve_similar_comments env.memoryEnabled env.memorySearch
      let inv1 := if env.memoryEnabled then ["retrieve_similar_comments"]
                  else []
      let rag_context :=
        if env.ragEnabled then augment_with_context true env.ragQueries
        else .disabled
      let inv2 := inv1 ++
        (if env.ragEnabled then ["augment_with_context"] else [])
      match env.profile with
      | .error e =>
          { outcome := .error e, invoked := inv2 ++ ["load_profile"] }
      | .ok p =>
          match perspectiveOf p with
          | .error e =>
              { outcome := .error e, invoked := inv2 ++ ["load_profile"] }
          | .ok _ =>
              let media_research :=
                match env.mediaResearch with
                | .ok r => r
                | .error _ => "Media research unavailable"
              let supporting_data :=
                match env.dataResearch with
                | .ok r => r
                | .error _ => "No supporting data available"
              let invR := inv2 ++
                ["load_profile", "research_media", "research_data"]
              match env.draftCall with
              | .error e =>
                  { outcome := .error e, invoked := invR ++ ["draft"] }
              | .ok drafted =>
                  let humanized :=
                    match env.humanizeCall with
                    | .ok h => h
                    | .error _ => drafted
                  let evaluation_scores := phase3EvalStep enable_evaluation env
                  let invE := invR ++ ["draft", "humanize"] ++
                    (if enable_evaluation && env.evaluatorEnabled then
                      ["evaluate_comment"] else [])
                  let gate := gateOf evaluation_scores
                  let invM := invE ++
                    (if env.memoryEnabled then
                      ["save_to_short_term"] ++
                        (if gate then ["save_to_long_term"] else [])
                    else [])
                  let invRag := invM ++
                    (if env.ragEnabled && gate then ["store_comment"]
                     else [])
                  let email_sent :=
                    if env.emailConfigured then
                      match env.emailSend with
                      | .ok b => b
                      | .error _ => false
                    else false
                  let invMail := invRag ++
                    (if env.emailConfigured then ["send_email"] else [])
                  let conversation_history :=
                    if env.memoryEnabled then env.history else []
                  { outcome := .ok
                      { executive_profile := p,
                        media_research := media_research,
                        supporting_data := supporting_data,
                        drafted_comment := drafted,
                        humanized_comment := humanized,
                        email_sent := email_sent,
                        errors := [],
                        past_comments := past_comments,
                        rag_context := rag_context,
                        conversation_history := conversation_history,
                        evaluation_scores := evaluation_scores,
                        memory_enabled := env.memoryEnabled,
                        rag_enabled := env.ragEnabled,
                        evaluation_enabled := enabledOf evaluation_scores },
                    invoked := invMail }

/-! ## Sample fixtures used by the concrete witnesses below -/

/-- A valid set of request inputs. -/
def inpOk : GenInputs :=
  { article_text := "Sample article text.",
    journalist_question := "What is the outlook?",
    media_outlet := "TechCrunch", executive_name := "Jane Doe",
    article_url := none, pr_manager_email := none }

/-- A request whose article text is empty. -/
def inpBad : GenInputs :=
  { article_text := "", journalist_question := "What is the outlook?",
    media_outlet := "TechCrunch", executive_name := "Jane Doe",
    article_url := none, pr_manager_email := none }

/-- A loaded profile with a non-empty talking-points list. -/
def profileOk : Profile :=
  { name := "Jane Doe", title := "CMO", communication_style := "direct",
    expertise := ["brand"],
    talking_points := some ["Long-term brand building"] }

/-- A Phase-3 environment in which every subsystem is enabled and the
evaluator call fails before the criterion loop, producing the
evaluator-side error dict (overall_passed False). -/
def envEvalFailed : Phase3Env :=
  { memoryEnabled := true, ragEnabled := true, evaluatorEnabled := true,
    memorySearch := .ok [],
    ragQueries := { commentSearch := .ok [], mediaSearch := .ok [],
                    exampleSearch := .ok [] },
    profile := .ok profileOk, mediaResearch := .ok "media analysis",
    dataResearch := .ok "curated data", draftCall := .ok "drafted",
    humanizeCall := .ok "humanized", evalEscape := none,
    evalOuterFail := some "context build failed",
    j1 := .ok (1, ""), j2 := .ok (1, ""), j3 := .ok (1, ""),
    j4 := .ok (1, ""), shortTermStore := .ok (), longTermStore := .ok (),
    ragCommentStore := .ok (), emailConfigured := false,
    emailSend := .ok false, history := [] }

/-- The same environment with a healthy evaluator; used with the
per-request evaluation opt-out, so evaluation is skipped. -/
def envEvalSkipped : Phase3Env :=
  { envEvalFailed with evalOuterFail := none }

/-- The same environment with a failing humanize call. -/
def envHumanizeFail : Phase3Env :=
  { envEvalSkipped with humanizeCall := .error "LLM timeout" }

/-- The same environment with a failing profile load. -/
def envProfileFail : Phase3Env :=
  { envEvalSkipped with profile := .error "Profile not found" }

/-- A synchronous environment with a failing humanize call. -/
def syncEnvHumFail : SyncEnv :=
  { profile := .ok profileOk, mediaResearch := .ok "media analysis",
    dataResearch := .ok "curated data", draftCall := .ok "sync drafted",
    humanizeCall := .error "LLM timeout", emailConfigured := false,
    emailSend := .ok false }

/-- A mid-workflow state holding a profile and a drafted comment. -/
def stateWithDraft : AgentState :=
  { initialState with executive_profile := some profileOk,
                      media_research := some "media analysis",
                      supporting_data := some "curated data",
                      drafted_comment := some "sync drafted" }

/-! ## Theorems for the claims -/

/-- Claim C3: on an enabled evaluator with all four criterion judges
returning scores, the overall score is the arithmetic mean of the four
per-criterion scores, the overall pass flag is exactly the comparison of
that mean against the 0.70 threshold, each per-criterion pass flag is the
comparison of its score against the same 0.70 threshold; in particular
four 1.0 scores yield overall score 1.0 with overall_passed true and four
0.0 scores yield overall_passed false. -/
theorem c3_overall_mean_and_threshold (s1 s2 s3 s4 : ℚ)
    (r1 r2 r3 r4 : String) :
    (∃ r : EvaluationResult,
      evaluate_comment true none (.ok (s1, r1)) (.ok (s2, r2)) (.ok (s3, r3))
          (.ok (s4, r4)) = .result r ∧
      r.overall_score = (s1 + s2 + s3 + s4) / 4 ∧
      r.overall_passed = decide ((s1 + s2 + s3 + s4) / 4 ≥ 7 / 10) ∧
      r.criteria_scores =
        [("tone_consistency", ⟨s1, r1, decide (s1 ≥ 7 / 10)⟩),
         ("data_usage", ⟨s2, r2, decide (s2 ≥ 7 / 10)⟩),
         ("authenticity", ⟨s3, r3, decide (s3 ≥ 7 / 10)⟩),
         ("relevance", ⟨s4, r4, decide (s4 ≥ 7 / 10)⟩)]) ∧
    (∃ r : EvaluationResult,
      evaluate_comment true none (.ok (1, "")) (.ok (1, "")) (.ok (1, ""))
          (.ok (1, "")) = .result r ∧
      r.overall_score = 1 ∧ r.overall_passed = true) ∧
    (∃ r : EvaluationResult,
      evaluate_comment true none (.ok (0, "")) (.ok (0, "")) (.ok (0, ""))
          (.ok (0, "")) = .result r ∧ r.overall_passed = false) := by
  have hs : ([(runCriterion (.ok (s1, r1))).score,
      (runCriterion (.ok (s2, r2))).score, (runCriterion (.ok (s3, r3))).score,
      (runCriterion (.ok (s4, r4))).score] : List ℚ).sum
      = s1 + s2 + s3 + s4 := by
    simp [runCriterion]
    ring
  refine ⟨⟨_, rfl, ?_, ?_, ?_⟩, ⟨_, rfl, ?_, ?_⟩, ⟨_, rfl, ?_⟩⟩
  · simp only [evaluate_comment, runCriterion]
    norm_num [hs]
    ring
  · simp only [evaluate_comment, runCriterion]
    norm_num [hs, passThreshold]
    constructor <;> intro h <;> linarith
  · simp only [evaluate_comment, runCriterion, passThreshold]
  · simp only [evaluate_comment, runCriterion, passThreshold]
    norm_num
  · simp only [evaluate_comment, runCriterion, passThreshold]
    norm_num
  · simp only [evaluate_comment, runCriterion, passThreshold]
    norm_num

/-- Claim C2: when exactly one of the four criterion judges raises (the
four conjuncts cover the four positions) and the other three each return
score 0.9, the overall score is (0 + 0.9 + 0.9 + 0.9) / 4 = 0.675, the
failed criterion's entry has score 0.0 and passed false with a
failure-reason rationale, and the other three entries are exactly the
entries a successful 0.9 judgement produces. -/
theorem c2_single_criterion_failure_isolated (e ra rb rc : String) :
    (∃ r : EvaluationResult,
      evaluate_comment true none (.error e) (.ok (9 / 10, ra))
          (.ok (9 / 10, rb)) (.ok (9 / 10, rc)) = .result r ∧
      r.overall_score = (0 + 9 / 10 + 9 / 10 + 9 / 10) / 4 ∧
      r.overall_score = 27 / 40 ∧
      r.criteria_scores =
        [("tone_consistency", ⟨0, "Evaluation failed: " ++ e, false⟩),
         ("data_usage", ⟨9 / 10, ra, true⟩),
         ("authenticity", ⟨9 / 10, rb, true⟩),
         ("relevance", ⟨9 / 10, rc, true⟩)]) ∧
    (∃ r : EvaluationResult,
      evaluate_comment true none (.ok (9 / 10, ra)) (.error e)
          (.ok (9 / 10, rb)) (.ok (9 / 10, rc)) = .result r ∧
      r.overall_score = 27 / 40 ∧
      r.criteria_scores =
        [("tone_consistency", ⟨9 / 10, ra, true⟩),
         ("data_usage", ⟨0, "Evaluation failed: " ++ e, false⟩),
         ("authenticity", ⟨9 / 10, rb, true⟩),
         ("relevance", ⟨9 / 10, rc, true⟩)]) ∧
    (∃ r : EvaluationResult,
      evaluate_comment true none (.ok (9 / 10, ra)) (.ok (9 / 10, rb))
          (.error e) (.ok (9 / 10, rc)) = .result r ∧
      r.overall_score = 27 / 40 ∧
      r.criteria_scores =
        [("tone_consistency", ⟨9 / 10, ra, true⟩),
         ("data_usage", ⟨9 / 10, rb, true⟩),
         ("authenticity", ⟨0, "Evaluation failed: " ++ e, false⟩),
         ("relevance", ⟨9 / 10, rc, true⟩)]) ∧
    (∃ r : EvaluationResult,
      evaluate_comment true none (.ok (9 / 10, ra)) (.ok (9 / 10, rb))
          (.ok (9 / 10, rc)) (.error e) = .result r ∧
      r.overall_score = 27 / 40 ∧
      r.criteria_scores =
        [("tone_consistency", ⟨9 / 10, ra, true⟩),
         ("data_usage", ⟨9 / 10, rb, true⟩),
         ("authenticity", ⟨9 / 10, rc, true⟩),
         ("relevance", ⟨0, "Evaluation failed: " ++ e, false⟩)]) := by
  refine ⟨⟨_, rfl, ?_, ?_, ?_⟩, ⟨_, rfl, ?_, ?_⟩, ⟨_, rfl, ?_, ?_⟩,
    ⟨_, rfl, ?_, ?_⟩⟩ <;>
    · simp only [evaluate_comment, runCriterion, passThreshold]
      norm_num

/-- Claim C4: evaluate_batch on the empty list over an enabled evaluator
reaches the unguarded pass-rate division by len(results) = 0; the
resulting ZeroDivisionError is caught by the blanket except, so the call
returns the error dict with comment_count 0 (and no statistics) instead of
the explicitly-guarded empty-statistics result the spec describes. -/
theorem c4_empty_batch_hits_division_by_zero :
    evaluate_batch true [] = .errored "division by zero" 0 := by rfl

/-- Claim C5, counterexample: constructing PRAgentEvaluator with the
feature flag on but both LLM credentials absent does not complete with a
disabled instance - the ValueError of _create_eval_llm is re-raised by the
constructor (evaluation.py line 66), even though the external judge setup
(here: successful) is never reached. -/
theorem c5_counterexample_evaluator_raises_on_missing_credentials :
    evaluatorConstruct true false false (.ok ())
      = .error "No valid API key for evaluation LLM" := by rfl

/-- Claim C5, amended: with the feature flag on and the required
credential absent, PRAgentMemory and PRAgentRAG construct without raising
as disabled instances, and every operation of a disabled subsystem is a
no-op or empty result; PRAgentEvaluator instead raises at construction,
and the agent-level constructor catches that exception and continues with
the evaluator absent, so evaluation still degrades rather than failing
per call. -/
theorem c5_amended_construct_disabled_policy
    (b st st2 : Except String Unit) (q : RagQueries)
    (of : Option String) (j1 j2 j3 j4 : JudgeOutcome)
    (items : List BatchItem) (search1 search2 search3 search4 :
      Except String (List Document)) :
    memoryConstruct true false b = .ok { enabled := false } ∧
    ragConstruct true false b = .ok { enabled := false } ∧
    evaluatorConstruct true false false b
      = .error "No valid API key for evaluation LLM" ∧
    agentWrapConstruct (evaluatorConstruct true false false b) = none ∧
    retrieve_similar_comments false search1 = [] ∧
    save_to_long_term false st = { storeWriteAttempted := false } ∧
    find_similar_comments false search2 = [] ∧
    retrieve_media_knowledge false search3 = [] ∧
    retrieve_examples false search4 = [] ∧
    store_comment false st2 = { storeWriteAttempted := false } ∧
    augment_with_context false q = .disabled ∧
    evaluate_comment false of j1 j2 j3 j4 = .disabled ∧
    evaluate_batch false items = .disabled :=
  ⟨rfl, rfl, rfl, rfl, rfl, rfl, rfl, rfl, rfl, rfl, rfl, rfl, rfl⟩

/-- Claim C8: when exactly one of the three retrieval sources of
augment_with_context errors (the three conjuncts cover the three sources),
the bundle is still returned in its enabled shape, the failing source's
slot is the empty list, the other two slots hold the formatted store
results, and each retrieval count equals the length of the corresponding
result list. -/
theorem c8_augment_tolerates_single_source_failure (e : String)
    (cd md ed : List Document) :
    (∃ b : AugmentBundle,
      augment_with_context true
        { commentSearch := .ok cd, mediaSearch := .error e,
          exampleSearch := .ok ed } = .bundle b ∧
      b.similar_comments = cd.map formatCommentDoc ∧
      b.media_knowledge = [] ∧
      b.examples = ed.map formatExampleDoc ∧
      b.similar_comments_count = b.similar_comments.length ∧
      b.media_knowledge_count = b.media_knowledge.length ∧
      b.examples_count = b.examples.length) ∧
    (∃ b : AugmentBundle,
      augment_with_context true
        { commentSearch := .error e, mediaSearch := .ok md,
          exampleSearch := .ok ed } = .bundle b ∧
      b.similar_comments = [] ∧
      b.media_knowledge = md.map formatMediaDoc ∧
      b.examples = ed.map formatExampleDoc ∧
      b.similar_comments_count = b.similar_comments.length ∧
      b.media_knowledge_count = b.media_knowledge.length ∧
      b.examples_count = b.examples.length) ∧
    (∃ b : AugmentBundle,
      augment_with_context true
        { commentSearch := .ok cd, mediaSearch := .ok md,
          exampleSearch := .error e } = .bundle b ∧
      b.similar_comments = cd.map formatCommentDoc ∧
      b.media_knowledge = md.map formatMediaDoc ∧
      b.examples = [] ∧
      b.similar_comments_count = b.similar_comments.length ∧
      b.media_knowledge_count = b.media_knowledge.length ∧
      b.examples_count = b.examples.length) :=
  ⟨⟨_, rfl, rfl, rfl, rfl, rfl, rfl, rfl⟩,
   ⟨_, rfl, rfl, rfl, rfl, rfl, rfl, rfl⟩,
   ⟨_, rfl, rfl, rfl, rfl, rfl, rfl, rfl⟩⟩

/-- Eviction always restores the token budget: the retained buffer is
within the limit. -/
theorem evictOldest_totalTokens_le (tok : String → Nat) (maxTokens : Nat) :
    ∀ l : List ChatMsg,
      totalTokens tok (evictOldest tok maxTokens l) ≤ maxTokens := by
  intro l
  induction l with
  | nil => simp [evictOldest, totalTokens]
  | cons m rest ih =>
      by_cases h : totalTokens tok (m :: rest) > maxTokens
      · simpa [evictOldest, h] using ih
      · simpa [evictOldest, h] using Nat.le_of_not_lt h

/-- Eviction only drops messages from the front: the retained buffer is a
suffix of the original, so the oldest messages go first. -/
theorem evictOldest_isSuffix (tok : String → Nat) (maxTokens : Nat) :
    ∀ l : List ChatMsg, List.IsSuffix (evictOldest tok maxTokens l) l := by
  intro l
  induction l with
  | nil => simp [evictOldest]
  | cons m rest ih =>
      by_cases h : totalTokens tok (m :: rest) > maxTokens
      · simp only [evictOldest, h, if_true]
        exact ih.trans (List.suffix_cons m rest)
      · simp [evictOldest, h]

/-- A buffer within budget stays within budget under any further appended
turns. -/
theorem bufferFold_totalTokens_le (tok : String → Nat) (maxTokens : Nat) :
    ∀ (turns : List (String × String)) (init : List ChatMsg),
      totalTokens tok init ≤ maxTokens →
      totalTokens tok
        (turns.foldl (fun msgs t => appendTurn tok maxTokens msgs t.1 t.2)
          init) ≤ maxTokens := by
  intro turns
  induction turns with
  | nil => intro init h; simpa using h
  | cons t ts ih =>
      intro init _
      exact ih _ (evictOldest_totalTokens_le tok maxTokens _)

/-- Claim C9: for every token estimator, budget and sequence of appended
turns, the short-term buffer's cumulative estimated token count never
exceeds the configured maximum, and each append evicts oldest messages
first (the post-append buffer is a suffix of the pre-append buffer
extended with the new human and ai messages). -/
theorem c9_token_budget_invariant (tok : String → Nat) (maxTokens : Nat) :
    (∀ turns : List (String × String),
      totalTokens tok (bufferAfter tok maxTokens turns) ≤ maxTokens) ∧
    (∀ (msgs : List ChatMsg) (question comment : String),
      List.IsSuffix (appendTurn tok maxTokens msgs question comment)
        (msgs ++ [{ role := "human", content := question },
                  { role := "ai", content := comment }])) := by
  constructor
  · intro turns
    exact bufferFold_totalTokens_le tok maxTokens turns []
      (by simp [totalTokens])
  · intro msgs question comment
    exact evictOldest_isSuffix tok maxTokens _

/-- Claim C1: in a completed Phase-3 run, when evaluation was performed
and its dict reports overall_passed false - either as a full result or as
the evaluator-side error dict, which carries overall_passed False -
neither the long-term memory archive write nor the RAG comment-store write
is reached; conversely, whenever the persistence gate (overall_passed with
default True) is true - overall passed, evaluation skipped or disabled, or
an escaped evaluator exception leaving the keyless agent-side error dict -
the archive write is reached when memory is enabled and the comment-store
write is reached when RAG is enabled. -/
theorem c1_persistence_gating (inp : GenInputs) (enable_evaluation : Bool)
    (env : Phase3Env) (p : Profile) (tp d : String)
    (hval : validateCore inp = .ok ())
    (hprof : env.profile = .ok p)
    (hp : perspectiveOf p = .ok tp)
    (hdraft : env.draftCall = .ok d) :
    (∀ r : EvaluationResult,
        phase3EvalStep enable_evaluation env = .scores (.result r) →
        r.overall_passed = false →
        "save_to_long_term" ∉ (generate_comment_with_memory_and_evaluation
            inp enable_evaluation env).invoked ∧
        "store_comment" ∉ (generate_comment_with_memory_and_evaluation
            inp enable_evaluation env).invoked) ∧
    (∀ e : String,
        phase3EvalStep enable_evaluation env = .scores (.evalErrored e) →
        "save_to_long_term" ∉ (generate_comment_with_memory_and_evaluation
            inp enable_evaluation env).invoked ∧
        "store_comment" ∉ (generate_comment_with_memory_and_evaluation
            inp enable_evaluation env).invoked) ∧
    (gateOf (phase3EvalStep enable_evaluation env) = true →
        (env.memoryEnabled = true →
          "save_to_long_term" ∈ (generate_comment_with_memory_and_evaluation
            inp enable_evaluation env).invoked) ∧
        (env.ragEnabled = true →
          "store_comment" ∈ (generate_comment_with_memory_and_evaluation
            inp enable_evaluation env).invoked)) := by
  obtain ⟨memE, ragE, evalE, ms, rq, prof, mr, dr, dc, hc, esc, eof,
    j1, j2, j3, j4, sts, lts, rcs, ec, es, hist⟩ := env
  dsimp only at hprof hdraft ⊢
  subst hprof hdraft
  refine ⟨?_, ?_, ?_⟩
  · intro r hres hpass
    simp only [generate_comment_with_memory_and_evaluation, hval, hp,
      hres, gateOf, hpass]
    cases memE <;> cases ragE <;> cases ec <;>
      cases enable_evaluation <;> cases evalE <;> simp_all
  · intro e hres
    simp only [generate_comment_with_memory_and_evaluation, hval, hp,
      hres, gateOf]
    cases memE <;> cases ragE <;> cases ec <;>
      cases enable_evaluation <;> cases evalE <;> simp_all
  · intro hgate
    simp only [generate_comment_with_memory_and_evaluation, hval, hp, hgate]
    cases memE <;> cases ragE <;> cases ec <;>
      cases enable_evaluation <;> cases evalE <;> simp_all

/-- Claim C1, witness: with valid inputs and every subsystem enabled, a
run whose evaluator errored (overall_passed False in the evaluator-side
dict) reaches neither persistence write, while a run with evaluation
opted out reaches both. -/
theorem c1_persistence_gating_witness :
    ("save_to_long_term" ∉ (generate_comment_with_memory_and_evaluation
        inpOk true envEvalFailed).invoked ∧
     "store_comment" ∉ (generate_comment_with_memory_and_evaluation
        inpOk true envEvalFailed).invoked) ∧
    ("save_to_long_term" ∈ (generate_comment_with_memory_and_evaluation
        inpOk false envEvalSkipped).invoked ∧
     "store_comment" ∈ (generate_comment_with_memory_and_evaluation
        inpOk false envEvalSkipped).invoked) := by
  have h1 := c1_persistence_gating inpOk true envEvalFailed profileOk
    "Long-term brand building" "drafted" rfl rfl rfl rfl
  have h2 := c1_persistence_gating inpOk false envEvalSkipped profileOk
    "Long-term brand building" "drafted" rfl rfl rfl rfl
  exact ⟨h1.2.1 "context build failed" rfl,
    (h2.2.2 rfl).1 rfl, (h2.2.2 rfl).2 rfl⟩

/-- When the six-field core validation fails, the contact-detail
validation of the synchronous and async entry points fails with the same
message. -/
theorem validateWithContact_error (inp : GenInputs) (uv ev : Bool)
    (m : String) (h : validateCore inp = .error m) :
    validateWithContact inp uv ev = .error m := by
  unfold validateWithContact
  rw [h]

/-- Any of the six rejection conditions makes the core validation raise. -/
theorem validateCore_error_of_bad (inp : GenInputs)
    (hbad : pyStrip inp.article_text = "" ∨
      pyStrip inp.journalist_question = "" ∨
      pyStrip inp.media_outlet = "" ∨ pyStrip inp.executive_name = "" ∨
      inp.article_text.length > 50000 ∨
      inp.journalist_question.length > 1000) :
    ∃ m, validateCore inp = .error m := by
  unfold validateCore
  split_ifs with h1 h2 h3 h4 h5 h6
  · exact ⟨_, rfl⟩
  · exact ⟨_, rfl⟩
  · exact ⟨_, rfl⟩
  · exact ⟨_, rfl⟩
  · exact ⟨_, rfl⟩
  · exact ⟨_, rfl⟩
  · rcases hbad with hb | hb | hb | hb | hb | hb <;> contradiction

/-- Claim C10: when article_text, journalist_question, media_outlet or
executive_name is empty or whitespace-only, or article_text exceeds
50,000 characters, or journalist_question exceeds 1,000 characters, all
three entry points raise ValueError with no workflow stage run: the
synchronous entry returns the error without consulting the cache or
invoking the workflow, and both async entries return the error with an
empty invocation list. -/
theorem c10_validation_short_circuit (inp : GenInputs) (uv ev : Bool)
    (cacheHit : Option AgentState) (senv : SyncEnv) (penv : Phase3Env)
    (enable_evaluation : Bool)
    (hbad : pyStrip inp.article_text = "" ∨
      pyStrip inp.journalist_question = "" ∨
      pyStrip inp.media_outlet = "" ∨ pyStrip inp.executive_name = "" ∨
      inp.article_text.length > 50000 ∨
      inp.journalist_question.length > 1000) :
    (∃ m, generate_comment inp uv ev cacheHit senv =
      { outcome := .error m, cacheChecked := false, workflowRan := false }) ∧
    (∃ m, generate_comment_async inp uv ev senv =
      { outcome := .error m, invoked := [] }) ∧
    (∃ m, generate_comment_with_memory_and_evaluation inp enable_evaluation
        penv = { outcome := .error m, invoked := [] }) := by
  obtain ⟨m, hm⟩ := validateCore_error_of_bad inp hbad
  refine ⟨⟨m, ?_⟩, ⟨m, ?_⟩, ⟨m, ?_⟩⟩
  · simp only [generate_comment, validateWithContact_error inp uv ev m hm]
  · simp only [generate_comment_async,
      validateWithContact_error inp uv ev m hm]
  · simp only [generate_comment_with_memory_and_evaluation, hm]

/-- Claim C10, witness: an empty article text makes all three entry
points reject without running anything. -/
theorem c10_validation_short_circuit_witness :
    (generate_comment inpBad true true none syncEnvHumFail).workflowRan
      = false ∧
    (generate_comment inpBad true true none syncEnvHumFail).cacheChecked
      = false ∧
    (generate_comment_async inpBad true true syncEnvHumFail).invoked = [] ∧
    (generate_comment_with_memory_and_evaluation inpBad true
      envEvalSkipped).invoked = [] := by
  have h := c10_validation_short_circuit inpBad true true none
    syncEnvHumFail envEvalSkipped true (Or.inl rfl)
  obtain ⟨⟨m1, h1⟩, ⟨m2, h2⟩, ⟨m3, h3⟩⟩ := h
  rw [h1, h2, h3]
  exact ⟨rfl, rfl, rfl, rfl⟩

/-- Claim C6, counterexample: in the synchronous graph workflow a
profile-load failure is not terminal - the run continues through every
node, merely appending the profile error (and the cascading node errors)
to the errors list, and returns a complete final state; and in the
Phase-3 workflow a humanize failure does not append to the errors list of
the returned result, which is the literal empty list. -/
theorem c6_counterexample_profile_failure_not_terminal :
    syncWorkflow
      { profile := .error "Profile not found for Jane Doe",
        mediaResearch := .ok "TechCrunch analysis",
        dataResearch := .ok "unused", draftCall := .ok "unused",
        humanizeCall := .ok "unused", emailConfigured := false,
        emailSend := .ok false } initialState
    = { executive_profile := none,
        media_research := some "TechCrunch analysis",
        supporting_data := some "No supporting data available",
        drafted_comment := none, humanized_comment := none,
        email_sent := false, current_step := "media_researched",
        errors :=
          ["Failed to load profile: Profile not found for Jane Doe",
           "Data research failed: NoneType object has no attribute get",
           "Comment drafting failed: argument of type NoneType is not iterable",
           "Humanization failed: argument of type NoneType is not iterable"] }
    ∧ ((generate_comment_with_memory_and_evaluation inpOk false
        envHumanizeFail).outcome.toOption.map Phase3Result.errors
      = some []) := ⟨rfl, rfl⟩

/-- Claim C6, amended: in the Phase-3 workflow (after input validation)
the terminal errors are exactly profile-load failure, the talking-points
IndexError raised while extracting the research perspective from a loaded
profile, and draft failure; every other stage failure is contained and
the run returns a complete result whose errors list is empty (stage
failures are logged, not appended).  In the synchronous graph workflow no
stage failure is terminal: profile-load and draft failures, like all
others, append to the errors list and the final state is still returned
(see the counterexample). -/
theorem c6_amended_terminal_errors (inp : GenInputs)
    (enable_evaluation : Bool) (env : Phase3Env) (p : Profile)
    (tp pe ie de d : String)
    (hval : validateCore inp = .ok ()) :
    (env.profile = .error pe →
      (generate_comment_with_memory_and_evaluation inp enable_evaluation
        env).outcome = .error pe) ∧
    (env.profile = .ok p → perspectiveOf p = .error ie →
      (generate_comment_with_memory_and_evaluation inp enable_evaluation
        env).outcome = .error ie) ∧
    (env.profile = .ok p → perspectiveOf p = .ok tp →
      env.draftCall = .error de →
      (generate_comment_with_memory_and_evaluation inp enable_evaluation
        env).outcome = .error de) ∧
    (env.profile = .ok p → perspectiveOf p = .ok tp →
      env.draftCall = .ok d →
      ∃ r : Phase3Result,
        (generate_comment_with_memory_and_evaluation inp enable_evaluation
          env).outcome = .ok r ∧ r.errors = [] ∧ r.drafted_comment = d) := by
  obtain ⟨memE, ragE, evalE, ms, rq, prof, mr, dr, dc, hc, esc, eof,
    j1, j2, j3, j4, sts, lts, rcs, ec, es, hist⟩ := env
  dsimp only
  refine ⟨?_, ?_, ?_, ?_⟩
  · intro hprof
    subst hprof
    simp [generate_comment_with_memory_and_evaluation, hval]
  · intro hprof hpersp
    subst hprof
    simp [generate_comment_with_memory_and_evaluation, hval, hpersp]
  · intro hprof hpersp hdraft
    subst hprof hdraft
    simp [generate_comment_with_memory_and_evaluation, hval, hpersp]
  · intro hprof hpersp hdraft
    subst hprof hdraft
    simp only [generate_comment_with_memory_and_evaluation, hval, hpersp]
    exact ⟨_, rfl, rfl, rfl⟩

/-- Claim C6, witness: a Phase-3 run with a failing profile load
propagates that error, while a fully successful draft yields a returned
result with an empty errors list. -/
theorem c6_amended_terminal_errors_witness :
    ((generate_comment_with_memory_and_evaluation inpOk false
        envProfileFail).outcome = .error "Profile not found") ∧
    ((generate_comment_with_memory_and_evaluation inpOk false
        envEvalSkipped).outcome.toOption.map Phase3Result.errors
      = some []) := by
  have h1 := c6_amended_terminal_errors inpOk false envProfileFail
    profileOk "tp" "Profile not found" "ie" "de" "d" rfl
  have h2 := c6_amended_terminal_errors inpOk false envEvalSkipped
    profileOk "Long-term brand building" "pe" "ie" "de" "drafted" rfl
  obtain ⟨r, hr, herr, _⟩ := h2.2.2.2 rfl rfl rfl
  refine ⟨h1.1 rfl, ?_⟩
  rw [hr]
  simp [Except.toOption, herr]

/-- Claim C7: whenever drafting succeeds and the humanize step fails, the
humanized comment equals the drafted comment verbatim and the failure
never fails the request - in the Phase-3 workflow and the async workflow
the run still returns a result, and in the synchronous graph node the
fallback state is returned with only an appended error. -/
theorem c7_humanize_fallback (inp : GenInputs)
    (enable_evaluation uv ev : Bool) (env : Phase3Env) (senv : SyncEnv)
    (s : AgentState) (p p2 p3 : Profile) (tp tp2 d d2 he : String)
    (hval : validateCore inp = .ok ())
    (hvalc : validateWithContact inp uv ev = .ok ()) :
    (env.profile = .ok p → perspectiveOf p = .ok tp →
      env.draftCall = .ok d → env.humanizeCall = .error he →
      ∃ r : Phase3Result,
        (generate_comment_with_memory_and_evaluation inp enable_evaluation
          env).outcome = .ok r ∧
        r.drafted_comment = d ∧ r.humanized_comment = d) ∧
    (senv.profile = .ok p2 → perspectiveOf p2 = .ok tp2 →
      senv.draftCall = .ok d2 → senv.humanizeCall = .error he →
      ∃ r : AsyncResult,
        (generate_comment_async inp uv ev senv).outcome = .ok r ∧
        r.drafted_comment = d2 ∧ r.humanized_comment = d2) ∧
    (s.executive_profile = some p3 → senv.humanizeCall = .error he →
      humanize_comment_node senv s =
        { s with humanized_comment := s.drafted_comment,
                 errors := s.errors ++ ["Humanization failed: " ++ he] }) := by
  refine ⟨?_, ?_, ?_⟩
  · obtain ⟨memE, ragE, evalE, ms, rq, prof, mr, dr, dc, hc, esc, eof,
      j1, j2, j3, j4, sts, lts, rcs, ec, es, hist⟩ := env
    dsimp only
    intro hprof hpersp hdraft hhum
    subst hprof hdraft hhum
    simp only [generate_comment_with_memory_and_evaluation, hval, hpersp]
    exact ⟨_, rfl, rfl, rfl⟩
  · intro hprof hpersp hdraft hhum
    simp only [generate_comment_async, hvalc, hprof, hpersp, hdraft, hhum]
    exact ⟨_, rfl, rfl, rfl⟩
  · intro hprof hhum
    simp [humanize_comment_node, hprof, hhum]

/-- Claim C7, witness: with a failing humanize call, the Phase-3 run, the
async run and the synchronous node all fall back to the drafted text. -/
theorem c7_humanize_fallback_witness :
    ((generate_comment_with_memory_and_evaluation inpOk false
        envHumanizeFail).outcome.toOption.map Phase3Result.humanized_comment
      = some "drafted") ∧
    ((generate_comment_async inpOk true true
        syncEnvHumFail).outcome.toOption.map AsyncResult.humanized_comment
      = some "sync drafted") ∧
    ((humanize_comment_node syncEnvHumFail stateWithDraft).humanized_comment
      = some "sync drafted") := by
  have h := c7_humanize_fallback inpOk false true true envHumanizeFail
    syncEnvHumFail stateWithDraft profileOk profileOk profileOk
    "Long-term brand building" "Long-term brand building" "drafted"
    "sync drafted" "LLM timeout" rfl rfl
  obtain ⟨r1, hr1, _, hh1⟩ := h.1 rfl rfl rfl rfl
  obtain ⟨r2, hr2, _, hh2⟩ := h.2.1 rfl rfl rfl rfl
  have h3 := h.2.2 rfl rfl
  refine ⟨?_, ?_, ?_⟩
  · rw [hr1]
    simp [Except.toOption, hh1]
  · rw [hr2]
    simp [Except.toOption, hh2]
  · rw [h3]
    rfl

end PRAgent
